import Mathlib

/-!
Shallow embedding of the HubSpot OAuth integration adapter
(`backend/integrations/hubspot.py` and `backend/models.py`).

Python dynamic values arriving from HTTP responses are modelled by the
`Json` type; Python runtime behaviour (truthiness, `dict.get`, `[]`
indexing, iteration, `str()` conversion inside f-strings) is modelled
explicitly, and fallible evaluation returns `Except PyErr`.  FastAPI
`HTTPException(status_code, detail)` is the `PyErr.httpException`
constructor; other Python exceptions that the code can raise (KeyError,
AttributeError, TypeError, pydantic validation failure) get their own
constructors.
-/

/-- JSON values as produced by `response.json()` in the Python source. -/
inductive Json where
  | null : Json
  | bool : Bool → Json
  | num : Int → Json
  | str : String → Json
  | arr : List Json → Json
  | obj : List (String × Json) → Json
deriving Repr

/-- Python exceptions that the embedded code can raise. -/
inductive PyErr where
  | httpException (status : Nat) (detail : String) : PyErr
  | keyError (k : String) : PyErr
  | attributeError : PyErr
  | typeError : PyErr
  | validationError : PyErr
deriving Repr, DecidableEq

/-- Python truthiness (`if not x`) for JSON values: `None`, `False`, `0`,
empty string, empty list and empty dict are falsy. -/
def truthy : Json → Bool
  | Json.null => false
  | Json.bool b => b
  | Json.num n => n != 0
  | Json.str s => s != ""
  | Json.arr xs => !xs.isEmpty
  | Json.obj fs => !fs.isEmpty

/-- Python `x.get(k)` on a value `x`: returns the entry when `x` is a dict
(`None` when the key is absent), raises AttributeError otherwise. -/
def Json.getOpt (j : Json) (k : String) : Except PyErr (Option Json) :=
  match j with
  | Json.obj fs => Except.ok (fs.lookup k)
  | _ => Except.error PyErr.attributeError

/-- Python `x.get(k, d)` — like `getOpt` with an explicit default. -/
def Json.getD (j : Json) (k : String) (d : Json) : Except PyErr Json :=
  (j.getOpt k).map (fun o => o.getD d)

/-- Python `x[k]` with a string key: dict lookup raising KeyError when the
key is absent, TypeError when `x` is not a dict. -/
def Json.index (j : Json) (k : String) : Except PyErr Json :=
  match j with
  | Json.obj fs =>
    match fs.lookup k with
    | some v => Except.ok v
    | none => Except.error (PyErr.keyError k)
  | _ => Except.error PyErr.typeError

/-- Python iteration `for x in v`: lists yield elements, strings yield
one-character strings, dicts yield their keys; other values raise
TypeError. -/
def iterList : Json → Except PyErr (List Json)
  | Json.arr xs => Except.ok xs
  | Json.str s => Except.ok (s.data.map (fun c => Json.str (String.singleton c)))
  | Json.obj fs => Except.ok (fs.map (fun f => Json.str f.1))
  | _ => Except.error PyErr.typeError

mutual

/-- Python `repr` of a JSON value (used by `str` on containers). -/
def pyRepr : Json → String
  | Json.null => "None"
  | Json.bool true => "True"
  | Json.bool false => "False"
  | Json.num n => toString n
  | Json.str s => "'" ++ s ++ "'"
  | Json.arr xs => "[" ++ pyReprList xs ++ "]"
  | Json.obj fs => "\x7b" ++ pyReprFields fs ++ "\x7d"

/-- Comma-separated reprs of list elements. -/
def pyReprList : List Json → String
  | [] => ""
  | [x] => pyRepr x
  | x :: xs => pyRepr x ++ ", " ++ pyReprList xs

/-- Comma-separated reprs of dict entries. -/
def pyReprFields : List (String × Json) → String
  | [] => ""
  | [(k, v)] => "'" ++ k ++ "': " ++ pyRepr v
  | (k, v) :: fs => "'" ++ k ++ "': " ++ pyRepr v ++ ", " ++ pyReprFields fs

end

/-- Python `str(x)` as applied by an f-string interpolation. -/
def fstr : Json → String
  | Json.null => "None"
  | Json.bool true => "True"
  | Json.bool false => "False"
  | Json.num n => toString n
  | Json.str s => s
  | Json.arr xs => "[" ++ pyReprList xs ++ "]"
  | Json.obj fs => "\x7b" ++ pyReprFields fs ++ "\x7d"

/-- Normalized CRM object, from `backend/models.py` (`IntegrationItem`,
a pydantic `BaseModel`: `id`, `name`, `type` required strings; `email`,
`phone`, `website`, `industry` optional strings defaulting to `None`). -/
structure IntegrationItem where
  id : String
  name : String
  type : String
  email : Option String := none
  phone : Option String := none
  website : Option String := none
  industry : Option String := none
deriving Repr, DecidableEq

/-- Pydantic validation of a required `str` field whose keyword argument
may be a JSON value or Python `None` (the `Option` is `none` when the
source expression `d.get(k)` found no key). -/
def asStr : Option Json → Except PyErr String
  | some (Json.str s) => Except.ok s
  | _ => Except.error PyErr.validationError

/-- Pydantic validation of a required `str` field fed a JSON value. -/
def asStrJ : Json → Except PyErr String
  | Json.str s => Except.ok s
  | _ => Except.error PyErr.validationError

/-- Pydantic validation of an `Optional[str]` field: absent key or JSON
null become `None`; a string passes; anything else fails validation. -/
def asOptStr : Option Json → Except PyErr (Option String)
  | none => Except.ok none
  | some Json.null => Except.ok none
  | some (Json.str s) => Except.ok (some s)
  | some _ => Except.error PyErr.validationError

/-- The module-level `TOKEN_STORAGE` dict, keyed by string. -/
abbrev TokenStore := List (String × Json)

/-- Python dict assignment `store[k] = v`: replaces the entry in place
when the key exists, appends it otherwise (insertion order preserved). -/
def storePut (store : TokenStore) (k : String) (v : Json) : TokenStore :=
  if (List.any store (fun p => p.1 == k)) then
    List.map (fun p => if p.1 == k then (k, v) else p) store
  else
    store ++ [(k, v)]

/-- Environment-sourced configuration: `os.getenv` may return `None`,
so each value is optional. -/
structure Config where
  client_id : Option String
  client_secret : Option String
  redirect_uri : Option String

/-- Python `str(x)` for an `os.getenv` result (string or `None`), as
`urllib.parse.urlencode` applies it to each parameter value. -/
def pyStrOpt : Option String → String
  | none => "None"
  | some s => s

/-- Fixed provider URLs from the source module. -/
def HUBSPOT_AUTH_URL : String := "https://app.hubspot.com/oauth/authorize"

/-- Token endpoint URL constant. -/
def HUBSPOT_TOKEN_URL : String := "https://api.hubapi.com/oauth/v1/token"

/-- Uppercase hexadecimal digit for a value below 16. -/
def hexDigit (n : Nat) : Char :=
  if n < 10 then Char.ofNat (48 + n) else Char.ofNat (55 + n)

/-- UTF-8 encoding of a character, as a list of byte values. -/
def utf8Bytes (c : Char) : List Nat :=
  let n := c.toNat
  if n < 128 then [n]
  else if n < 2048 then [192 ||| (n >>> 6), 128 ||| (n &&& 63)]
  else if n < 65536 then
    [224 ||| (n >>> 12), 128 ||| ((n >>> 6) &&& 63), 128 ||| (n &&& 63)]
  else
    [240 ||| (n >>> 18), 128 ||| ((n >>> 12) &&& 63),
     128 ||| ((n >>> 6) &&& 63), 128 ||| (n &&& 63)]

/-- Percent-encoding `%XX` of one byte. -/
def pctByte (n : Nat) : List Char :=
  ['%', hexDigit (n / 16 % 16), hexDigit (n % 16)]

/-- Characters `urllib.parse.quote_plus` leaves unescaped: ASCII
letters, digits, and `_.-~`. -/
def isSafe (c : Char) : Bool :=
  c.isAlpha || c.isDigit || c == '_' || c == '.' || c == '-' || c == '~'

/-- `quote_plus` on a single character: space becomes `+`, safe
characters stay, everything else is percent-encoded per UTF-8 byte. -/
def quotePlusChar (c : Char) : List Char :=
  if c = ' ' then ['+']
  else if isSafe c then [c]
  else (utf8Bytes c).flatMap pctByte

/-- `quote_plus` over a character list. -/
def quotePlusL (l : List Char) : List Char := l.flatMap quotePlusChar

/-- Python `urllib.parse.quote_plus`. -/
def quotePlus (s : String) : String := String.mk (quotePlusL s.data)

/-- One `k=v` component of `urlencode` output (both sides quoted). -/
def urlencodePair (p : String × String) : String :=
  quotePlus p.1 ++ "=" ++ quotePlus p.2

/-- Python `urllib.parse.urlencode`: `k=v` components joined by `&`. -/
def urlencode : List (String × String) → String
  | [] => ""
  | [p] => urlencodePair p
  | p :: ps => urlencodePair p ++ "&" ++ urlencode ps

/-- The `authorize_hubspot(user_id, org_id)` coroutine: builds the
authorization URL from four fixed parameters; the user and org ids are
accepted but unused. -/
def authorize_hubspot (cfg : Config) (user_id org_id : String) : String :=
  HUBSPOT_AUTH_URL ++ "?" ++ urlencode
    [("client_id", pyStrOpt cfg.client_id),
     ("redirect_uri", pyStrOpt cfg.redirect_uri),
     ("scope", "crm.objects.contacts.read crm.objects.companies.read"),
     ("response_type", "code")]

/-- Form body of the token-endpoint POST built in `oauth2callback_hubspot`. -/
structure TokenReq where
  grant_type : String
  client_id : Option String
  client_secret : Option String
  redirect_uri : Option String
  code : String
deriving Repr, DecidableEq

/-- An HTTP response from the provider: status code plus parsed JSON body. -/
structure Resp where
  status : Nat
  body : Json
deriving Repr

/-- Result of a callback invocation: the token store afterwards, the
outbound POST requests that were issued (in order), and the returned
value or raised exception. -/
structure CallbackOut where
  store : TokenStore
  posts : List TokenReq
  result : Except PyErr Json

/-- The POST payload for an authorization code under a configuration. -/
def tokenReq (cfg : Config) (code : String) : TokenReq :=
  { grant_type := "authorization_code"
    client_id := cfg.client_id
    client_secret := cfg.client_secret
    redirect_uri := cfg.redirect_uri
    code := code }

/-- The `oauth2callback_hubspot(request)` coroutine.  The inbound request
is represented by its query parameters; the provider by a function from
the POST payload to its response.  `request.query_params.get("code")`
is the first `code` entry; `if not code` rejects both a missing and an
empty code with HTTP 400.  A non-200 provider status raises an
HTTPException carrying that status; on 200 the JSON body is stored under
the fixed key `"hubspot"` and a success message is returned. -/
def oauth2callback_hubspot (cfg : Config) (queryParams : List (String × String))
    (provider : TokenReq → Resp) (store : TokenStore) : CallbackOut :=
  match queryParams.lookup "code" with
  | none =>
    { store := store, posts := []
      result := Except.error (PyErr.httpException 400 "Authorization code missing") }
  | some code =>
    if code = "" then
      { store := store, posts := []
        result := Except.error (PyErr.httpException 400 "Authorization code missing") }
    else
      let req := tokenReq cfg code
      let response := provider req
      if response.status ≠ 200 then
        { store := store, posts := [req]
          result := Except.error (PyErr.httpException response.status "Failed to get access token") }
      else
        { store := storePut store "hubspot" response.body, posts := [req]
          result := Except.ok (Json.obj [("message", Json.str "HubSpot authentication successful")]) }

/-- The `get_hubspot_credentials(user_id, org_id)` coroutine:
`TOKEN_STORAGE.get("hubspot")` followed by `if not credentials`, which
raises HTTP 401 when the entry is absent or falsy. -/
def get_hubspot_credentials (store : TokenStore) (user_id org_id : String) :
    Except PyErr Json :=
  match store.lookup "hubspot" with
  | none => Except.error (PyErr.httpException 401 "Missing HubSpot credentials")
  | some credentials =>
    if truthy credentials then Except.ok credentials
    else Except.error (PyErr.httpException 401 "Missing HubSpot credentials")

/-- Construction of one contact `IntegrationItem` inside the contacts
loop of `get_items_hubspot`: keyword arguments are evaluated left to
right, then pydantic validates the fields. -/
def contactItem (contact : Json) : Except PyErr IntegrationItem := do
  let idv ← contact.getOpt "id"
  let props ← contact.index "properties"
  let fn ← props.getD "firstname" (Json.str "")
  let ln ← props.getD "lastname" (Json.str "")
  let name := fstr fn ++ " " ++ fstr ln
  let email ← props.getOpt "email"
  let phone ← props.getOpt "phone"
  let idS ← asStr idv
  let emailS ← asOptStr email
  let phoneS ← asOptStr phone
  Except.ok { id := idS, name := name, type := "contact"
              email := emailS, phone := phoneS, website := none, industry := none }

/-- Construction of one company `IntegrationItem` inside the companies
loop of `get_items_hubspot`. -/
def companyItem (company : Json) : Except PyErr IntegrationItem := do
  let idv ← company.getOpt "id"
  let props ← company.index "properties"
  let namev ← props.getD "name" (Json.str "")
  let website ← props.getOpt "website"
  let industry ← props.getOpt "industry"
  let idS ← asStr idv
  let nameS ← asStrJ namev
  let websiteS ← asOptStr website
  let industryS ← asOptStr industry
  Except.ok { id := idS, name := nameS, type := "company"
              email := none, phone := none, website := websiteS, industry := industryS }

/-- The per-resource page handling in `get_items_hubspot`: on a 200
status, `response.json().get("results", [])` is iterated; any other
status contributes no items and raises nothing. -/
def pageResults (r : Resp) : Except PyErr (List Json) :=
  if r.status = 200 then do
    let res ← r.body.getD "results" (Json.arr [])
    iterList res
  else Except.ok []

/-- The body of a `for` loop appending one constructed item per record. -/
def processResults (mk : Json → Except PyErr IntegrationItem) :
    List Json → Except PyErr (List IntegrationItem)
  | [] => Except.ok []
  | c :: cs => do
    let item ← mk c
    let rest ← processResults mk cs
    Except.ok (item :: rest)

/-- The `get_items_hubspot(user_id, org_id)` coroutine.  The two
provider responses parameterise the two GET requests.  Credentials are
fetched (HTTP 401 on absence), re-checked for truthiness (HTTP 401), the
bearer header is built from `credentials['access_token']`, contacts then
companies are processed, and an empty combined list raises HTTP 404. -/
def get_items_hubspot (store : TokenStore) (user_id org_id : String)
    (contactResp companyResp : Resp) : Except PyErr (List IntegrationItem) := do
  let credentials ← get_hubspot_credentials store user_id org_id
  if truthy credentials = false then
    Except.error (PyErr.httpException 401 "HubSpot credentials not found")
  else do
    let tok ← credentials.index "access_token"
    let _headers := [("Authorization", "Bearer " ++ fstr tok)]
    let cs ← pageResults contactResp
    let contactItems ← processResults contactItem cs
    let ks ← pageResults companyResp
    let companyItems ← processResults companyItem ks
    let items := contactItems ++ companyItems
    if items.isEmpty then
      Except.error (PyErr.httpException 404 "No HubSpot items found")
    else
      Except.ok items

/-! Basic lemmas about the embedded Python semantics. -/

theorem exceptBind_ok {α β : Type} (a : α) (f : α → Except PyErr β) :
    (Except.ok a >>= f) = f a := rfl

theorem exceptBind_error {α β : Type} (e : PyErr) (f : α → Except PyErr β) :
    ((Except.error e : Except PyErr α) >>= f) = (Except.error e : Except PyErr β) := rfl

theorem cred_ok_truthy (store : TokenStore) (uid oid : String) (cred : Json)
    (h : get_hubspot_credentials store uid oid = Except.ok cred) :
    truthy cred = true := by
  unfold get_hubspot_credentials at h
  split at h
  · exact absurd h (by simp)
  · split at h
    next ht => cases h; exact ht
    next ht => exact absurd h (by simp)

theorem pageResults_non200 (r : Resp) (h : r.status ≠ 200) :
    pageResults r = Except.ok [] := by
  unfold pageResults
  rw [if_neg h]

theorem processResults_nil (mk : Json → Except PyErr IntegrationItem) :
    processResults mk [] = Except.ok [] := rfl

theorem processResults_forall₂ (mk : Json → Except PyErr IntegrationItem)
    (l : List Json) (ys : List IntegrationItem)
    (h : processResults mk l = Except.ok ys) :
    List.Forall₂ (fun c it => mk c = Except.ok it) l ys := by
  induction l generalizing ys with
  | nil =>
    cases h
    exact List.Forall₂.nil
  | cons c cs ih =>
    unfold processResults at h
    cases h1 : mk c with
    | error e => rw [h1] at h; simp [exceptBind_error] at h
    | ok item =>
      rw [h1] at h
      rw [exceptBind_ok] at h
      cases h2 : processResults mk cs with
      | error e => rw [h2] at h; simp [exceptBind_error] at h
      | ok rest =>
        rw [h2] at h
        rw [exceptBind_ok] at h
        cases h
        exact List.Forall₂.cons h1 (ih rest h2)

theorem processResults_mem (mk : Json → Except PyErr IntegrationItem)
    (l : List Json) (ys : List IntegrationItem)
    (h : processResults mk l = Except.ok ys) :
    ∀ y ∈ ys, ∃ x ∈ l, mk x = Except.ok y := by
  have hf := processResults_forall₂ mk l ys h
  clear h
  induction hf with
  | nil => intro y hy; cases hy
  | cons hmk hf ih =>
    intro y hy
    rcases List.mem_cons.mp hy with heq | hmem
    · exact ⟨_, List.mem_cons_self _ _, heq ▸ hmk⟩
    · rcases ih y hmem with ⟨x, hx, hmx⟩
      exact ⟨x, List.mem_cons_of_mem _ hx, hmx⟩

theorem contactItem_ok (contact : Json) (it : IntegrationItem)
    (h : contactItem contact = Except.ok it) :
    it.type = "contact" ∧ it.website = none ∧ it.industry = none ∧
    ∃ a b : String, it.name = a ++ " " ++ b := by
  unfold contactItem at h
  cases h1 : contact.getOpt "id" with
  | error e => rw [h1] at h; exact absurd h (by simp [exceptBind_error])
  | ok idv =>
  rw [h1, exceptBind_ok] at h
  cases h2 : contact.index "properties" with
  | error e => rw [h2] at h; exact absurd h (by simp [exceptBind_error])
  | ok props =>
  rw [h2, exceptBind_ok] at h
  cases h3 : props.getD "firstname" (Json.str "") with
  | error e => rw [h3] at h; exact absurd h (by simp [exceptBind_error])
  | ok fn =>
  rw [h3, exceptBind_ok] at h
  cases h4 : props.getD "lastname" (Json.str "") with
  | error e => rw [h4] at h; exact absurd h (by simp [exceptBind_error])
  | ok ln =>
  rw [h4, exceptBind_ok] at h
  cases h5 : props.getOpt "email" with
  | error e => rw [h5] at h; exact absurd h (by simp [exceptBind_error])
  | ok email =>
  rw [h5, exceptBind_ok] at h
  cases h6 : props.getOpt "phone" with
  | error e => rw [h6] at h; exact absurd h (by simp [exceptBind_error])
  | ok phone =>
  rw [h6, exceptBind_ok] at h
  cases h7 : asStr idv with
  | error e => rw [h7] at h; exact absurd h (by simp [exceptBind_error])
  | ok idS =>
  rw [h7, exceptBind_ok] at h
  cases h8 : asOptStr email with
  | error e => rw [h8] at h; exact absurd h (by simp [exceptBind_error])
  | ok emailS =>
  rw [h8, exceptBind_ok] at h
  cases h9 : asOptStr phone with
  | error e => rw [h9] at h; exact absurd h (by simp [exceptBind_error])
  | ok phoneS =>
  rw [h9, exceptBind_ok] at h
  cases h
  exact ⟨rfl, rfl, rfl, fstr fn, fstr ln, rfl⟩

theorem companyItem_ok (company : Json) (it : IntegrationItem)
    (h : companyItem company = Except.ok it) :
    it.type = "company" ∧ it.email = none ∧ it.phone = none := by
  unfold companyItem at h
  cases h1 : company.getOpt "id" with
  | error e => rw [h1] at h; exact absurd h (by simp [exceptBind_error])
  | ok idv =>
  rw [h1, exceptBind_ok] at h
  cases h2 : company.index "properties" with
  | error e => rw [h2] at h; exact absurd h (by simp [exceptBind_error])
  | ok props =>
  rw [h2, exceptBind_ok] at h
  cases h3 : props.getD "name" (Json.str "") with
  | error e => rw [h3] at h; exact absurd h (by simp [exceptBind_error])
  | ok namev =>
  rw [h3, exceptBind_ok] at h
  cases h4 : props.getOpt "website" with
  | error e => rw [h4] at h; exact absurd h (by simp [exceptBind_error])
  | ok website =>
  rw [h4, exceptBind_ok] at h
  cases h5 : props.getOpt "industry" with
  | error e => rw [h5] at h; exact absurd h (by simp [exceptBind_error])
  | ok industry =>
  rw [h5, exceptBind_ok] at h
  cases h6 : asStr idv with
  | error e => rw [h6] at h; exact absurd h (by simp [exceptBind_error])
  | ok idS =>
  rw [h6, exceptBind_ok] at h
  cases h7 : asStrJ namev with
  | error e => rw [h7] at h; exact absurd h (by simp [exceptBind_error])
  | ok nameS =>
  rw [h7, exceptBind_ok] at h
  cases h8 : asOptStr website with
  | error e => rw [h8] at h; exact absurd h (by simp [exceptBind_error])
  | ok websiteS =>
  rw [h8, exceptBind_ok] at h
  cases h9 : asOptStr industry with
  | error e => rw [h9] at h; exact absurd h (by simp [exceptBind_error])
  | ok industryS =>
  rw [h9, exceptBind_ok] at h
  cases h
  exact ⟨rfl, rfl, rfl⟩

/-- The part of `get_items_hubspot` downstream of credential handling. -/
def itemsPipeline (cr kr : Resp) : Except PyErr (List IntegrationItem) := do
  let cs ← pageResults cr
  let xs ← processResults contactItem cs
  let ks ← pageResults kr
  let ys ← processResults companyItem ks
  if (xs ++ ys).isEmpty then
    Except.error (PyErr.httpException 404 "No HubSpot items found")
  else
    Except.ok (xs ++ ys)

theorem get_items_eval (store : TokenStore) (uid oid : String) (cred tok : Json)
    (hcred : get_hubspot_credentials store uid oid = Except.ok cred)
    (htok : Json.index cred "access_token" = Except.ok tok) (cr kr : Resp) :
    get_items_hubspot store uid oid cr kr = itemsPipeline cr kr := by
  have htr := cred_ok_truthy store uid oid cred hcred
  unfold get_items_hubspot
  rw [hcred, exceptBind_ok, if_neg (by simp [htr]), htok, exceptBind_ok]
  rfl

theorem get_items_ok_inv (store : TokenStore) (uid oid : String) (cr kr : Resp)
    (l : List IntegrationItem)
    (h : get_items_hubspot store uid oid cr kr = Except.ok l) :
    ∃ cs xs ks ys, pageResults cr = Except.ok cs ∧
      processResults contactItem cs = Except.ok xs ∧
      pageResults kr = Except.ok ks ∧
      processResults companyItem ks = Except.ok ys ∧
      l = xs ++ ys := by
  unfold get_items_hubspot at h
  cases hcred : get_hubspot_credentials store uid oid with
  | error e => rw [hcred] at h; exact absurd h (by simp [exceptBind_error])
  | ok cred =>
  rw [hcred, exceptBind_ok] at h
  rw [if_neg (by simp [cred_ok_truthy store uid oid cred hcred])] at h
  cases hidx : Json.index cred "access_token" with
  | error e => rw [hidx] at h; exact absurd h (by simp [exceptBind_error])
  | ok tok =>
  rw [hidx, exceptBind_ok] at h
  cases h1 : pageResults cr with
  | error e => rw [h1] at h; exact absurd h (by simp [exceptBind_error])
  | ok cs =>
  rw [h1, exceptBind_ok] at h
  cases h2 : processResults contactItem cs with
  | error e => rw [h2] at h; exact absurd h (by simp [exceptBind_error])
  | ok xs =>
  rw [h2, exceptBind_ok] at h
  cases h3 : pageResults kr with
  | error e => rw [h3] at h; exact absurd h (by simp [exceptBind_error])
  | ok ks =>
  rw [h3, exceptBind_ok] at h
  cases h4 : processResults companyItem ks with
  | error e => rw [h4] at h; exact absurd h (by simp [exceptBind_error])
  | ok ys =>
  rw [h4, exceptBind_ok] at h
  by_cases he : (xs ++ ys).isEmpty
  · rw [if_pos he] at h; exact absurd h (by simp)
  · rw [if_neg he] at h
    cases h
    exact ⟨cs, xs, ks, ys, rfl, h2, rfl, h4, rfl⟩

theorem itemsPipeline_ok (cr kr : Resp) (cs ks : List Json)
    (xs ys : List IntegrationItem)
    (hcs : pageResults cr = Except.ok cs)
    (hxs : processResults contactItem cs = Except.ok xs)
    (hks : pageResults kr = Except.ok ks)
    (hys : processResults companyItem ks = Except.ok ys) :
    itemsPipeline cr kr =
      if (xs ++ ys).isEmpty then
        Except.error (PyErr.httpException 404 "No HubSpot items found")
      else
        Except.ok (xs ++ ys) := by
  unfold itemsPipeline
  rw [hcs, exceptBind_ok, hxs, exceptBind_ok, hks, exceptBind_ok, hys, exceptBind_ok]

/-! Observer functions for the authorization URL: extracting and parsing
the query string. -/

/-- Everything after the first question mark. -/
def afterQ : List Char → List Char
  | [] => []
  | c :: cs => if c = '?' then cs else afterQ cs

/-- Split a character list at every occurrence of a separator. -/
def splitOnChar (sep : Char) : List Char → List (List Char)
  | [] => [[]]
  | c :: cs =>
    if c = sep then [] :: splitOnChar sep cs
    else
      match splitOnChar sep cs with
      | [] => [[c]]
      | g :: gs => (c :: g) :: gs

/-- Decompose one `k=v` component at its first equals sign. -/
def paramPair (g : List Char) : String × String :=
  (String.mk (g.takeWhile (fun c => c != '=')),
   String.mk ((g.dropWhile (fun c => c != '=')).drop 1))

/-- The ordered list of query parameters of a URL. -/
def parseQuery (url : String) : List (String × String) :=
  (splitOnChar '&' (afterQ url.data)).map paramPair

theorem strData_append (a b : String) : (a ++ b).data = a.data ++ b.data := by
  cases a
  cases b
  rfl

theorem afterQ_append (xs ys : List Char) (h : '?' ∉ xs) :
    afterQ (xs ++ '?' :: ys) = ys := by
  induction xs with
  | nil => simp [afterQ]
  | cons c cs ih =>
    have hc : c ≠ '?' := fun hc => h (hc ▸ List.mem_cons_self c cs)
    simp only [List.cons_append, afterQ, if_neg hc]
    exact ih (fun hm => h (List.mem_cons_of_mem c hm))

theorem splitOnChar_not_mem (sep : Char) (xs : List Char) (h : sep ∉ xs) :
    splitOnChar sep xs = [xs] := by
  induction xs with
  | nil => rfl
  | cons c cs ih =>
    have hc : c ≠ sep := fun hc => h (hc ▸ List.mem_cons_self c cs)
    rw [splitOnChar, if_neg hc, ih (fun hm => h (List.mem_cons_of_mem c hm))]

theorem splitOnChar_append (sep : Char) (xs ys : List Char) (h : sep ∉ xs) :
    splitOnChar sep (xs ++ sep :: ys) = xs :: splitOnChar sep ys := by
  induction xs with
  | nil => simp [splitOnChar]
  | cons c cs ih =>
    have hc : c ≠ sep := fun hc => h (hc ▸ List.mem_cons_self c cs)
    rw [List.cons_append, splitOnChar, if_neg hc,
      ih (fun hm => h (List.mem_cons_of_mem c hm))]

theorem takeWhile_append_eq (xs ys : List Char) (h : '=' ∉ xs) :
    (xs ++ '=' :: ys).takeWhile (fun c => c != '=') = xs := by
  induction xs with
  | nil => simp [List.takeWhile]
  | cons c cs ih =>
    have hc : c ≠ '=' := fun hc => h (hc ▸ List.mem_cons_self c cs)
    simp only [List.cons_append, List.takeWhile_cons]
    rw [if_pos (by simp [hc])]
    rw [ih (fun hm => h (List.mem_cons_of_mem c hm))]

theorem dropWhile_append_eq (xs ys : List Char) (h : '=' ∉ xs) :
    (xs ++ '=' :: ys).dropWhile (fun c => c != '=') = '=' :: ys := by
  induction xs with
  | nil => simp [List.dropWhile]
  | cons c cs ih =>
    have hc : c ≠ '=' := fun hc => h (hc ▸ List.mem_cons_self c cs)
    simp only [List.cons_append, List.dropWhile_cons]
    rw [if_pos (by simp [hc])]
    exact ih (fun hm => h (List.mem_cons_of_mem c hm))

theorem paramPair_eq (k v : List Char) (h : '=' ∉ k) :
    paramPair (k ++ '=' :: v) = (String.mk k, String.mk v) := by
  unfold paramPair
  rw [takeWhile_append_eq k v h, dropWhile_append_eq k v h]
  rfl

theorem hexDigit_lt16_ne : ∀ n < 16,
    hexDigit n ≠ '&' ∧ hexDigit n ≠ '=' ∧ hexDigit n ≠ '?' := by decide

theorem mem_pctByte_ne (x : Char) (n : Nat) (hx : x ∈ pctByte n) :
    x ≠ '&' ∧ x ≠ '=' ∧ x ≠ '?' := by
  unfold pctByte at hx
  rcases hx with _ | ⟨_, (_ | ⟨_, (_ | ⟨_, h⟩)⟩)⟩
  · exact ⟨by decide, by decide, by decide⟩
  · exact hexDigit_lt16_ne _ (Nat.mod_lt _ (by norm_num))
  · exact hexDigit_lt16_ne _ (Nat.mod_lt _ (by norm_num))
  · cases h

theorem mem_quotePlusChar_ne (x c : Char) (hx : x ∈ quotePlusChar c) :
    x ≠ '&' ∧ x ≠ '=' ∧ x ≠ '?' := by
  unfold quotePlusChar at hx
  by_cases hsp : c = ' '
  · rw [if_pos hsp] at hx
    rcases hx with _ | ⟨_, h⟩
    · exact ⟨by decide, by decide, by decide⟩
    · cases h
  · rw [if_neg hsp] at hx
    by_cases hsafe : isSafe c
    · rw [if_pos hsafe] at hx
      rcases hx with _ | ⟨_, h⟩
      · refine ⟨?_, ?_, ?_⟩ <;> intro hc <;> rw [hc] at hsafe <;> exact absurd hsafe (by decide)
      · cases h
    · rw [if_neg hsafe] at hx
      rcases List.mem_flatMap.mp hx with ⟨n, _, hn⟩
      exact mem_pctByte_ne x n hn

theorem mem_quotePlusL_ne (x : Char) (l : List Char) (hx : x ∈ quotePlusL l) :
    x ≠ '&' ∧ x ≠ '=' ∧ x ≠ '?' := by
  rcases List.mem_flatMap.mp hx with ⟨c, _, hc⟩
  exact mem_quotePlusChar_ne x c hc

theorem amp_not_mem_quotePlus (s : String) : '&' ∉ (quotePlus s).data := by
  intro h
  exact (mem_quotePlusL_ne '&' s.data h).1 rfl

theorem eq_not_mem_quotePlus (s : String) : '=' ∉ (quotePlus s).data := by
  intro h
  exact (mem_quotePlusL_ne '=' s.data h).2.1 rfl

theorem strMk_data (s : String) : String.mk s.data = s := rfl

theorem amp_not_mem_pair (k v : String) :
    '&' ∉ ((quotePlus k).data ++ '=' :: (quotePlus v).data) := by
  intro h
  rcases List.mem_append.mp h with h | h
  · exact amp_not_mem_quotePlus k h
  · rcases List.mem_cons.mp h with h | h
    · exact absurd h (by decide)
    · exact amp_not_mem_quotePlus v h

theorem urlencodePair_data (k v : String) :
    (urlencodePair (k, v)).data = (quotePlus k).data ++ '=' :: (quotePlus v).data := by
  show (quotePlus k ++ "=" ++ quotePlus v).data = _
  rw [strData_append, strData_append]
  rw [List.append_assoc]
  rfl

theorem parseQuery_urlencode4 (k1 v1 k2 v2 k3 v3 k4 v4 : String) :
    parseQuery (HUBSPOT_AUTH_URL ++ "?" ++
        urlencode [(k1, v1), (k2, v2), (k3, v3), (k4, v4)]) =
      [(quotePlus k1, quotePlus v1), (quotePlus k2, quotePlus v2),
       (quotePlus k3, quotePlus v3), (quotePlus k4, quotePlus v4)] := by
  unfold parseQuery
  rw [strData_append, strData_append]
  have hq : HUBSPOT_AUTH_URL.data ++ "?".data ++
      (urlencode [(k1, v1), (k2, v2), (k3, v3), (k4, v4)]).data =
      HUBSPOT_AUTH_URL.data ++ '?' ::
      (urlencode [(k1, v1), (k2, v2), (k3, v3), (k4, v4)]).data := by
    rw [List.append_assoc]
    rfl
  rw [hq, afterQ_append _ _ (by decide)]
  have hu : (urlencode [(k1, v1), (k2, v2), (k3, v3), (k4, v4)]).data =
      ((quotePlus k1).data ++ '=' :: (quotePlus v1).data) ++ '&' ::
      (((quotePlus k2).data ++ '=' :: (quotePlus v2).data) ++ '&' ::
       (((quotePlus k3).data ++ '=' :: (quotePlus v3).data) ++ '&' ::
        ((quotePlus k4).data ++ '=' :: (quotePlus v4).data))) := by
    show (urlencodePair (k1, v1) ++ "&" ++
      (urlencodePair (k2, v2) ++ "&" ++
        (urlencodePair (k3, v3) ++ "&" ++ urlencodePair (k4, v4)))).data = _
    rw [strData_append, strData_append, strData_append, strData_append,
      strData_append, strData_append]
    rw [urlencodePair_data, urlencodePair_data, urlencodePair_data, urlencodePair_data]
    have hamp : ("&" : String).data = ['&'] := rfl
    rw [hamp]
    simp [List.append_assoc]
  rw [hu]
  rw [splitOnChar_append '&' _ _ (amp_not_mem_pair k1 v1)]
  rw [splitOnChar_append '&' _ _ (amp_not_mem_pair k2 v2)]
  rw [splitOnChar_append '&' _ _ (amp_not_mem_pair k3 v3)]
  rw [splitOnChar_not_mem '&' _ (amp_not_mem_pair k4 v4)]
  rw [List.map_cons, List.map_cons, List.map_cons, List.map_cons, List.map_nil]
  rw [paramPair_eq _ _ (eq_not_mem_quotePlus k1),
    paramPair_eq _ _ (eq_not_mem_quotePlus k2),
    paramPair_eq _ _ (eq_not_mem_quotePlus k3),
    paramPair_eq _ _ (eq_not_mem_quotePlus k4)]

/-! Concrete fixtures used by witnesses and example-based claims. -/

/-- A token store holding one exchanged credential. -/
def sampleStore : TokenStore :=
  [("hubspot", Json.obj [("access_token", Json.str "t")])]

/-- The contact record of the spec's worked example. -/
def sampleContact : Json :=
  Json.obj [("id", Json.str "1"),
    ("properties", Json.obj [("firstname", Json.str "A"),
      ("lastname", Json.str "B"), ("email", Json.str "a@x.com")])]

/-- Contacts response carrying exactly the sample contact. -/
def contactsResp : Resp :=
  { status := 200, body := Json.obj [("results", Json.arr [sampleContact])] }

/-- Companies response with an empty results page. -/
def companiesEmptyResp : Resp :=
  { status := 200, body := Json.obj [("results", Json.arr [])] }

/-- A fully populated configuration. -/
def sampleConfig : Config :=
  { client_id := some "cid", client_secret := some "sec",
    redirect_uri := some "https://cb.example/redirect" }

/-- Dictionary fields for an optional property of a constructed record. -/
def optField (k : String) (v : Option String) : List (String × Json) :=
  match v with
  | none => []
  | some s => [(k, Json.str s)]

/-- A provider contact record with the given id and optional properties. -/
def mkContactJson (idS : String) (fn ln em ph : Option String) : Json :=
  Json.obj [("id", Json.str idS),
    ("properties", Json.obj (optField "firstname" fn ++ optField "lastname" ln ++
      optField "email" em ++ optField "phone" ph))]

/-- C9: for every pair of user id and org id inputs, `authorize_hubspot`
returns a URL whose query string contains exactly the four parameters
`client_id`, `redirect_uri`, `scope`, and `response_type=code`,
URL-encoded, the scope being the fixed string
`"crm.objects.contacts.read crm.objects.companies.read"`; the returned
URL is the same string regardless of the user and org id inputs. -/
theorem hubspot_c9 (cfg : Config) (user_id org_id : String) :
    parseQuery (authorize_hubspot cfg user_id org_id) =
      [("client_id", quotePlus (pyStrOpt cfg.client_id)),
       ("redirect_uri", quotePlus (pyStrOpt cfg.redirect_uri)),
       ("scope", quotePlus "crm.objects.contacts.read crm.objects.companies.read"),
       ("response_type", "code")] ∧
    quotePlus "crm.objects.contacts.read crm.objects.companies.read" =
      "crm.objects.contacts.read+crm.objects.companies.read" ∧
    ∀ user_id2 org_id2 : String,
      authorize_hubspot cfg user_id org_id = authorize_hubspot cfg user_id2 org_id2 := by
  refine ⟨?_, by decide, fun _ _ => rfl⟩
  unfold authorize_hubspot
  rw [parseQuery_urlencode4 "client_id" (pyStrOpt cfg.client_id)
    "redirect_uri" (pyStrOpt cfg.redirect_uri)
    "scope" "crm.objects.contacts.read crm.objects.companies.read"
    "response_type" "code"]
  rw [show quotePlus "client_id" = "client_id" by decide,
    show quotePlus "redirect_uri" = "redirect_uri" by decide,
    show quotePlus "scope" = "scope" by decide,
    show quotePlus "response_type" = "response_type" by decide,
    show quotePlus "code" = "code" by decide]

/-- C2: whenever the provider's POST response for the token exchange has
a status other than 200, `oauth2callback_hubspot` raises an
`HTTPException` carrying that same provider status, issues exactly that
one POST, and leaves the token store exactly as it was. -/
theorem hubspot_c2 (cfg : Config) (queryParams : List (String × String))
    (provider : TokenReq → Resp) (store : TokenStore) (c : String)
    (hc : queryParams.lookup "code" = some c) (hne : c ≠ "")
    (hst : (provider (tokenReq cfg c)).status ≠ 200) :
    oauth2callback_hubspot cfg queryParams provider store =
      { store := store, posts := [tokenReq cfg c],
        result := Except.error (PyErr.httpException
          (provider (tokenReq cfg c)).status "Failed to get access token") } := by
  unfold oauth2callback_hubspot
  rw [hc]
  simp only [if_neg hne, if_pos hst]

/-- C2 witness: a concrete 403 token-exchange failure. -/
theorem hubspot_c2_witness :
    oauth2callback_hubspot sampleConfig [("code", "abc")]
        (fun _ => { status := 403, body := Json.null }) sampleStore =
      { store := sampleStore, posts := [tokenReq sampleConfig "abc"],
        result := Except.error (PyErr.httpException 403 "Failed to get access token") } :=
  hubspot_c2 sampleConfig [("code", "abc")]
    (fun _ => { status := 403, body := Json.null }) sampleStore "abc"
    rfl (by decide) (by decide)

/-- C7: a callback whose query parameters contain no `code` entry raises
an `HTTPException` with status 400 and issues no outbound POST. -/
theorem hubspot_c7 (cfg : Config) (queryParams : List (String × String))
    (provider : TokenReq → Resp) (store : TokenStore)
    (h : queryParams.lookup "code" = none) :
    oauth2callback_hubspot cfg queryParams provider store =
      { store := store, posts := [],
        result := Except.error (PyErr.httpException 400 "Authorization code missing") } := by
  unfold oauth2callback_hubspot
  rw [h]

/-- C7 witness: a callback with an empty query string. -/
theorem hubspot_c7_witness :
    oauth2callback_hubspot sampleConfig []
        (fun _ => { status := 200, body := Json.null }) sampleStore =
      { store := sampleStore, posts := [],
        result := Except.error (PyErr.httpException 400 "Authorization code missing") } :=
  hubspot_c7 sampleConfig [] (fun _ => { status := 200, body := Json.null })
    sampleStore rfl

/-- C8 counterexample: with an empty object stored under `"hubspot"` an
entry exists in the store, yet `get_hubspot_credentials` raises
`MissingCredentials`, so the accessor does not fail exactly when no
entry is stored, and does not return every stored entry unchanged. -/
theorem hubspot_c8_counterexample :
    List.lookup "hubspot" [("hubspot", Json.obj [])] = some (Json.obj []) ∧
    get_hubspot_credentials [("hubspot", Json.obj [])] "u" "o" =
      Except.error (PyErr.httpException 401 "Missing HubSpot credentials") :=
  ⟨rfl, rfl⟩

/-- C8 amended: `get_hubspot_credentials` fails with `MissingCredentials`
(HTTP 401) exactly when the fixed-key entry is absent or the stored
value is Python-falsy (such as an empty object); when a truthy entry is
stored it is returned unchanged, for every user id and org id. -/
theorem hubspot_c8_amended (store : TokenStore) (uid oid : String) :
    (get_hubspot_credentials store uid oid =
        Except.error (PyErr.httpException 401 "Missing HubSpot credentials") ↔
      (store.lookup "hubspot" = none ∨
        ∃ c, store.lookup "hubspot" = some c ∧ truthy c = false)) ∧
    ∀ c, store.lookup "hubspot" = some c → truthy c = true →
      get_hubspot_credentials store uid oid = Except.ok c := by
  constructor
  · unfold get_hubspot_credentials
    cases hl : List.lookup "hubspot" store with
    | none => simp [hl]
    | some c =>
      by_cases ht : truthy c
      · simp [hl, ht]
      · simp only [hl, if_neg ht]
        simp [ht, Bool.eq_false_iff.mpr ht]
  · intro c hl ht
    unfold get_hubspot_credentials
    rw [hl]
    simp [ht]

/-- C8 amended witness: a truthy stored credential is returned unchanged. -/
theorem hubspot_c8_witness :
    get_hubspot_credentials sampleStore "u" "o" =
      Except.ok (Json.obj [("access_token", Json.str "t")]) :=
  (hubspot_c8_amended sampleStore "u" "o").2
    (Json.obj [("access_token", Json.str "t")]) rfl rfl

/-- The normalized item for the sample contact. -/
def sampleItem : IntegrationItem :=
  { id := "1", name := "A B", type := "contact",
    email := some "a@x.com", phone := none, website := none, industry := none }

/-- C1: every item returned by `get_items_hubspot` populates exactly one
field group selected by its type: a `"contact"` item has `website` and
`industry` unset, and a `"company"` item has `email` and `phone` unset. -/
theorem hubspot_c1 (store : TokenStore) (uid oid : String) (cr kr : Resp)
    (l : List IntegrationItem)
    (h : get_items_hubspot store uid oid cr kr = Except.ok l) :
    ∀ it ∈ l,
      (it.type = "contact" ∧ it.website = none ∧ it.industry = none) ∨
      (it.type = "company" ∧ it.email = none ∧ it.phone = none) := by
  intro it hit
  rcases get_items_ok_inv store uid oid cr kr l h with ⟨cs, xs, ks, ys, hcs, hxs, hks, hys, rfl⟩
  rcases List.mem_append.mp hit with hm | hm
  · rcases processResults_mem _ _ _ hxs it hm with ⟨x, _, hx⟩
    have hc := contactItem_ok x it hx
    exact Or.inl ⟨hc.1, hc.2.1, hc.2.2.1⟩
  · rcases processResults_mem _ _ _ hys it hm with ⟨x, _, hx⟩
    exact Or.inr (companyItem_ok x it hx)

/-- C1 witness: the sample fetch produces only type-correct items. -/
theorem hubspot_c1_witness :
    (sampleItem.type = "contact" ∧ sampleItem.website = none ∧ sampleItem.industry = none) ∨
    (sampleItem.type = "company" ∧ sampleItem.email = none ∧ sampleItem.phone = none) :=
  hubspot_c1 sampleStore "u" "o" contactsResp companiesEmptyResp [sampleItem]
    rfl sampleItem (by simp)

/-- C3: with valid stored credentials, when both provider responses
contribute zero items (each is non-200 or yields an empty results list)
the fetch fails with HTTP 404 `NoItemsFound`; and whenever processing
produces at least one item, the fetch returns the combined list instead
of failing. -/
theorem hubspot_c3 (store : TokenStore) (uid oid : String) (cred tok : Json)
    (hcred : get_hubspot_credentials store uid oid = Except.ok cred)
    (htok : Json.index cred "access_token" = Except.ok tok)
    (cr kr : Resp) :
    ((cr.status ≠ 200 ∨ pageResults cr = Except.ok []) →
     (kr.status ≠ 200 ∨ pageResults kr = Except.ok []) →
     get_items_hubspot store uid oid cr kr =
       Except.error (PyErr.httpException 404 "No HubSpot items found")) ∧
    (∀ (cs ks : List Json) (xs ys : List IntegrationItem),
      pageResults cr = Except.ok cs →
      processResults contactItem cs = Except.ok xs →
      pageResults kr = Except.ok ks →
      processResults companyItem ks = Except.ok ys →
      xs ++ ys ≠ [] →
      get_items_hubspot store uid oid cr kr = Except.ok (xs ++ ys)) := by
  have heval := get_items_eval store uid oid cred tok hcred htok
  constructor
  · intro hc hk
    have hcs : pageResults cr = Except.ok [] := hc.elim (pageResults_non200 cr) id
    have hks : pageResults kr = Except.ok [] := hk.elim (pageResults_non200 kr) id
    rw [heval cr kr,
      itemsPipeline_ok cr kr [] [] [] [] hcs (processResults_nil _) hks (processResults_nil _)]
    rfl
  · intro cs ks xs ys hcs hxs hks hys hne
    rw [heval cr kr, itemsPipeline_ok cr kr cs ks xs ys hcs hxs hks hys,
      if_neg (by simpa using hne)]

/-- C3 witness: both requests failing upstream yields the 404 error. -/
theorem hubspot_c3_witness :
    get_items_hubspot sampleStore "u" "o" { status := 500, body := Json.null }
        { status := 503, body := Json.null } =
      Except.error (PyErr.httpException 404 "No HubSpot items found") :=
  (hubspot_c3 sampleStore "u" "o" (Json.obj [("access_token", Json.str "t")])
    (Json.str "t") rfl rfl { status := 500, body := Json.null }
    { status := 503, body := Json.null }).1
    (Or.inl (by decide)) (Or.inl (by decide))

/-- C4: a non-200 status on one of the two resource requests raises no
error: that page contributes zero items, and the overall result does not
depend on the failing response at all — replacing it by any other
non-200 response leaves the outcome unchanged, so the per-resource
failure is never propagated to the caller as its own error. -/
theorem hubspot_c4 (store : TokenStore) (uid oid : String) (cr kr : Resp) :
    (cr.status ≠ 200 → pageResults cr = Except.ok [] ∧
      ∀ cr2 : Resp, cr2.status ≠ 200 →
        get_items_hubspot store uid oid cr kr = get_items_hubspot store uid oid cr2 kr) ∧
    (kr.status ≠ 200 → pageResults kr = Except.ok [] ∧
      ∀ kr2 : Resp, kr2.status ≠ 200 →
        get_items_hubspot store uid oid cr kr = get_items_hubspot store uid oid cr kr2) := by
  constructor
  · intro h
    refine ⟨pageResults_non200 cr h, fun cr2 h2 => ?_⟩
    unfold get_items_hubspot
    simp only [pageResults_non200 cr h, pageResults_non200 cr2 h2]
  · intro h
    refine ⟨pageResults_non200 kr h, fun kr2 h2 => ?_⟩
    unfold get_items_hubspot
    simp only [pageResults_non200 kr h, pageResults_non200 kr2 h2]

/-- C4 witness: a failing contacts request contributes nothing and its
status and body are immaterial to the result. -/
theorem hubspot_c4_witness :
    pageResults { status := 500, body := Json.null } = Except.ok [] ∧
    get_items_hubspot sampleStore "u" "o" { status := 500, body := Json.null }
        companiesEmptyResp =
      get_items_hubspot sampleStore "u" "o" { status := 503, body := Json.bool true }
        companiesEmptyResp := by
  have h := (hubspot_c4 sampleStore "u" "o" { status := 500, body := Json.null }
    companiesEmptyResp).1 (by decide)
  exact ⟨h.1, h.2 { status := 503, body := Json.bool true } (by decide)⟩

/-- C5: with valid stored credentials, the returned list is exactly the
contact group followed by the company group; each group is aligned
position-by-position with the provider's results list, so provider order
is preserved within each group, and the groups are typed accordingly. -/
theorem hubspot_c5 (store : TokenStore) (uid oid : String) (cred tok : Json)
    (hcred : get_hubspot_credentials store uid oid = Except.ok cred)
    (htok : Json.index cred "access_token" = Except.ok tok)
    (cr kr : Resp) (cs ks : List Json) (xs ys : List IntegrationItem)
    (hcs : pageResults cr = Except.ok cs)
    (hxs : processResults contactItem cs = Except.ok xs)
    (hks : pageResults kr = Except.ok ks)
    (hys : processResults companyItem ks = Except.ok ys)
    (hne : xs ++ ys ≠ []) :
    get_items_hubspot store uid oid cr kr = Except.ok (xs ++ ys) ∧
    List.Forall₂ (fun c it => contactItem c = Except.ok it) cs xs ∧
    List.Forall₂ (fun k it => companyItem k = Except.ok it) ks ys ∧
    (∀ it ∈ xs, it.type = "contact") ∧
    (∀ it ∈ ys, it.type = "company") := by
  refine ⟨?_, processResults_forall₂ _ _ _ hxs, processResults_forall₂ _ _ _ hys, ?_, ?_⟩
  · rw [get_items_eval store uid oid cred tok hcred htok cr kr,
      itemsPipeline_ok cr kr cs ks xs ys hcs hxs hks hys,
      if_neg (by simpa using hne)]
  · intro it hit
    rcases processResults_mem _ _ _ hxs it hit with ⟨x, _, hx⟩
    exact (contactItem_ok x it hx).1
  · intro it hit
    rcases processResults_mem _ _ _ hys it hit with ⟨x, _, hx⟩
    exact (companyItem_ok x it hx).1

/-- C5 witness: the sample fetch returns the contact group followed by
the (empty) company group. -/
theorem hubspot_c5_witness :
    get_items_hubspot sampleStore "u" "o" contactsResp companiesEmptyResp =
      Except.ok ([sampleItem] ++ []) :=
  (hubspot_c5 sampleStore "u" "o" (Json.obj [("access_token", Json.str "t")])
    (Json.str "t") rfl rfl contactsResp companiesEmptyResp
    [sampleContact] [] [sampleItem] [] rfl rfl rfl rfl (by simp)).1

/-- C6: on the spec's worked example the fetch returns exactly one item
with id `"1"`, name `"A B"`, type `"contact"`, email `"a@x.com"` and
phone unset; and in general a contact's name is firstname and lastname
space-joined, each missing field defaulting to the empty string. -/
theorem hubspot_c6 :
    get_items_hubspot sampleStore "u" "o" contactsResp companiesEmptyResp =
      Except.ok [sampleItem] ∧
    ∀ (idS : String) (fn ln em ph : Option String),
      contactItem (mkContactJson idS fn ln em ph) =
        Except.ok { id := idS, name := fn.getD "" ++ " " ++ ln.getD "",
                    type := "contact", email := em, phone := ph,
                    website := none, industry := none } := by
  refine ⟨rfl, ?_⟩
  intro idS fn ln em ph
  cases fn <;> cases ln <;> cases em <;> cases ph <;>
    simp [contactItem, mkContactJson, optField, Json.getOpt, Json.getD, Json.index,
      asStr, asOptStr, fstr, List.lookup, Option.getD, Except.map, exceptBind_ok]

/-- C10: every contact item produced by `get_items_hubspot` has a name
containing a space between the firstname and lastname parts; when both
properties are missing the name is the single-space string. -/
theorem hubspot_c10 :
    (∀ (store : TokenStore) (uid oid : String) (cr kr : Resp)
        (l : List IntegrationItem),
      get_items_hubspot store uid oid cr kr = Except.ok l →
      ∀ it ∈ l, it.type = "contact" → ' ' ∈ it.name.data) ∧
    contactItem (Json.obj [("id", Json.str "x"), ("properties", Json.obj [])]) =
      Except.ok { id := "x", name := " ", type := "contact", email := none,
                  phone := none, website := none, industry := none } := by
  constructor
  · intro store uid oid cr kr l h it hit htype
    rcases get_items_ok_inv store uid oid cr kr l h with
      ⟨cs, xs, ks, ys, hcs, hxs, hks, hys, rfl⟩
    rcases List.mem_append.mp hit with hm | hm
    · rcases processResults_mem _ _ _ hxs it hm with ⟨x, _, hx⟩
      rcases (contactItem_ok x it hx).2.2.2 with ⟨a, b, hname⟩
      rw [hname, strData_append, strData_append]
      simp
    · rcases processResults_mem _ _ _ hys it hm with ⟨x, _, hx⟩
      have hty := (companyItem_ok x it hx).1
      rw [htype] at hty
      exact absurd hty (by decide)
  · rfl

/-- C10 witness: the sample contact's name contains the joining space. -/
theorem hubspot_c10_witness : ' ' ∈ ("A B" : String).data :=
  hubspot_c10.1 sampleStore "u" "o" contactsResp companiesEmptyResp [sampleItem]
    rfl sampleItem (by simp) rfl
